import Mathlib

/-!
Verification development for the ranked-workout scoring pipeline.

The aggregation, evidence-gating window selection, hard-set counting,
PR-creation and streak logic are embedded from
`src/app/api/sessions/route.ts` and the dashboard handler bundled in
`src/lib/auth.config.ts`.  The scoring primitives live in
`src/lib/scoring.ts` and `config/scoring.json`, which are not part of the
provided sources; those definitions are modelled from the specification
and carry a doc comment starting with `Modelled from the spec:`.

Numeric conventions: JavaScript numbers are modelled by `ℚ` where the
code only performs field operations and comparisons, and by `ℝ` where the
specification uses transcendental functions (allometric power, exponential
decay).  `Math.round` is floor of x + 1/2, `Math.floor` on an integer
quotient is floor division.
-/

namespace RankedWorkout

/-- Biological sex as stored on the profile. -/
inductive Sex
  | male
  | female
deriving DecidableEq, Repr

/-- The six ordered rank tiers (rankTierKeys in the dashboard handler). -/
inductive RankTier
  | bronze
  | silver
  | gold
  | diamond
  | apex
  | mythic
deriving DecidableEq, Repr

/-- Successor tier, mirroring rankTierKeys[currentTierIndex + 1]:
returns none exactly at the top tier (mythic). -/
def RankTier.next : RankTier → Option RankTier
  | .bronze => some .silver
  | .silver => some .gold
  | .gold => some .diamond
  | .diamond => some .apex
  | .apex => some .mythic
  | .mythic => none

/-- Score range for one rank tier, from config rankTiers. -/
structure RankRange where
  min : ℚ
  max : ℚ
deriving Repr

/-- One point of a percentile band: a strength metric value and the score
it maps to, from config percentileBands. -/
structure PercentilePoint where
  metricValue : ℚ
  score : ℚ
deriving Repr

/-- Weekly volume landmarks for a training-age bracket, from config
volumeLandmarks. -/
structure VolumeLandmarks where
  mev : ℚ
  mav : ℚ
  mrv : ℚ
deriving Repr

/-- Modelled from the spec: the ScoringConfig document of section 6
(config/scoring.json is not under the provided sources).  Rank tier
ranges, per-sex percentile bands, volume landmarks per training age,
decay half life and evidence gating entries (minSessions, maxScore)
per window length. -/
structure ScoringConfig where
  rankTiers : RankTier → RankRange
  percentileBands : Sex → List PercentilePoint
  volumeLandmarks : ℚ → VolumeLandmarks
  halfLifeDays : ℚ
  evidenceGating : ℕ → List (ℕ × ℚ)

/-- JavaScript rounding Math.round x = floor (x + 1/2), on rationals. -/
def jsRound (q : ℚ) : ℤ := ⌊q + 1 / 2⌋

/-- Modelled from the spec: estimate1RM of src/lib/scoring.ts (section
4.1): exact at reps = 1 (returns the weight unchanged) and the Epley
formula weight * (1 + reps / 30) beyond, as in the end-to-end example
weight 200, reps 5 gives 200 * (1 + 5/30). -/
def estimate1RM (weight : ℚ) (reps : ℕ) : ℚ :=
  if reps ≤ 1 then weight else weight * (1 + (reps : ℚ) / 30)

/-- Modelled from the spec: determineRank of src/lib/scoring.ts (section
4.8): tiers are ordered contiguous bands, the resolved tier is the
highest tier whose minimum the score reaches. -/
def determineRank (cfg : ScoringConfig) (score : ℚ) : RankTier :=
  if (cfg.rankTiers .mythic).min ≤ score then .mythic
  else if (cfg.rankTiers .apex).min ≤ score then .apex
  else if (cfg.rankTiers .diamond).min ≤ score then .diamond
  else if (cfg.rankTiers .gold).min ≤ score then .gold
  else if (cfg.rankTiers .silver).min ≤ score then .silver
  else .bronze

/-- Overall average score (dashboard handler, lines 272 to 273):
sum of the per-muscle scores divided by max 1 (number of muscle groups). -/
def avgScore (scores : List ℤ) : ℚ :=
  (scores.sum : ℚ) / (max 1 scores.length : ℕ)

/-- Overall rank (dashboard handler, line 275): rank resolved from the
average of all muscle group scores. -/
def overallRank (cfg : ScoringConfig) (scores : List ℤ) : RankTier :=
  determineRank cfg (avgScore scores)

/-- Rank progress within the current tier (dashboard handler, lines 277
to 291): interpolate toward the next tier minimum when a next tier
exists, otherwise 100. -/
def rankProgress (cfg : ScoringConfig) (avg : ℚ) : ℚ :=
  match (determineRank cfg avg).next with
  | some nt =>
      ((avg - (cfg.rankTiers (determineRank cfg avg)).min) /
        ((cfg.rankTiers nt).min - (cfg.rankTiers (determineRank cfg avg)).min)) * 100
  | none => 100

/-- Effective session count for evidence gating (route.ts line 136,
dashboard line 235): Math.max of the 28-day and 56-day counts. -/
def effectiveSessions (s28 s56 : ℕ) : ℕ := max s28 s56

/-- Effective window for evidence gating (route.ts line 137, dashboard
line 236): 56 when the 56-day count is at least the 28-day count,
otherwise 28. -/
def effectiveWindow (s28 s56 : ℕ) : ℕ :=
  if s56 ≥ s28 then 56 else 28

/-- One logged set as stored (SetLog row): weight, reps, optional RPE,
warmup flag. -/
structure SetLog where
  weight : ℚ
  reps : ℕ
  rpe : Option ℚ
  isWarmup : Bool
deriving DecidableEq, Repr

/-- Incoming set payload of the POST handler before normalization. -/
structure RawSet where
  weight : ℚ
  reps : ℕ
  rpe : Option ℚ
  isWarmup : Bool
deriving DecidableEq, Repr

/-- POST body normalization (route.ts line 293): rpe: set.rpe || null,
so a recorded RPE of 0 (falsy in JavaScript) is stored as null. -/
def normalizeRpe (r : Option ℚ) : Option ℚ :=
  match r with
  | none => none
  | some x => if x = 0 then none else some x

/-- The stored set built by the POST handler from a raw payload set. -/
def normalizeSet (s : RawSet) : SetLog :=
  { weight := s.weight, reps := s.reps, rpe := normalizeRpe s.rpe,
    isWarmup := s.isWarmup }

/-- Hard-set test of the volume counters (route.ts line 126, dashboard
line 484): not a warmup and (!set.rpe || set.rpe >= 7); the JavaScript
falsiness of a missing RPE (and of a literal 0) counts as hard. -/
def isHardSet (s : SetLog) : Bool :=
  !s.isWarmup &&
    (match s.rpe with
     | none => true
     | some r => r = 0 || 7 ≤ r)

/-- One exercise log restricted to a muscle group: the contribution row
for that muscle (none when the exercise has no row for it) and the sets. -/
structure ExerciseLogForMuscle where
  contribution : Option ℚ
  sets : List SetLog
deriving Repr

/-- Weekly hard-set accumulation for one muscle group (route.ts lines
119 to 131, dashboard lines 468 to 491): skip exercises whose
contribution row is missing or below 10, then add contribution / 100
for every hard set. -/
def hardSetsForMuscle (logs : List ExerciseLogForMuscle) : ℚ :=
  logs.foldl
    (fun acc el =>
      match el.contribution with
      | none => acc
      | some c =>
          if c < 10 then acc
          else el.sets.foldl
            (fun a s => if isHardSet s then a + c / 100 else a) acc)
    0

/-- Streak coercion for the same-day branch (route.ts line 421):
user.currentStreak || 1, where null and 0 are falsy. -/
def jsOrOne (s : Option ℕ) : ℕ :=
  match s with
  | none => 1
  | some n => if n = 0 then 1 else n

/-- Streak update of the POST handler (route.ts lines 394 to 429), with
calendar days abstracted as integer day indices (the code normalizes
both dates to local midnight and floors the millisecond difference).
lastDay is the day of the most recent earlier session (none when no
earlier session exists), cur the stored streak (none when unset). -/
def updateStreak (lastDay : Option ℤ) (newDay : ℤ) (cur : Option ℕ) : ℕ :=
  match lastDay with
  | none => 1
  | some d =>
      let daysDiff := newDay - d
      if daysDiff = 0 then jsOrOne cur
      else if daysDiff = 1 then cur.getD 0 + 1
      else 1

/-- A personal record row: estimated 1RM and the date it was set
(milliseconds since epoch). -/
structure PRRecord where
  estimated1RM : ℚ
  date : ℤ
deriving DecidableEq, Repr

/-- One step of the best-PR selection: keep the record with the higher
estimated 1RM, preferring the earlier one on ties. -/
def bestPRStep (acc : Option PRRecord) (pr : PRRecord) : Option PRRecord :=
  match acc with
  | none => some pr
  | some b => if pr.estimated1RM > b.estimated1RM then some pr else some b

/-- The PR used for scoring: db.pRRecord.findFirst ordered by
estimated1RM descending, modelled as a fold keeping the first record
with the maximal estimated 1RM. -/
def bestPROf (prs : List PRRecord) : Option PRRecord :=
  prs.foldl bestPRStep none

/-- Best estimated 1RM over the non-warmup sets of a session exercise
(route.ts lines 323 to 334): starts at 0 and keeps the maximum. -/
def bestSessionE1RM (sets : List SetLog) : ℚ :=
  sets.foldl
    (fun acc s => if s.isWarmup then acc else max acc (estimate1RM s.weight s.reps))
    0

/-- PR creation test of the POST handler (route.ts lines 336 to 346): a
PR is written when the best session estimate is positive and either no
PR exists or the estimate strictly exceeds the best existing one. -/
def prCreated (prs : List PRRecord) (sets : List SetLog) : Bool :=
  let best := bestSessionE1RM sets
  0 < best &&
    (match bestPROf prs with
     | none => true
     | some b => b.estimated1RM < best)

/-- PR history after the POST handler runs for one exercise: appended
with the new record exactly when prCreated holds, otherwise unchanged. -/
def newPRHistory (prs : List PRRecord) (sets : List SetLog) (now : ℤ) :
    List PRRecord :=
  if prCreated prs sets then
    prs ++ [{ estimated1RM := bestSessionE1RM sets, date := now }]
  else prs

/-- Modelled from the spec: the volume scorer of src/lib/scoring.ts
(section 4.5).  The exact curve shape is configuration driven; following
the stated anchors we take 0 at or below 0 sets, a linear climb to 100
at the MAV landmark of the training-age bracket, and a plateau at 100
from MAV onward (monotone up to MAV, bounded past MRV). -/
def calculateVolumeScore (cfg : ScoringConfig) (hardSets : ℤ) (age : ℚ) : ℚ :=
  let lm := cfg.volumeLandmarks age
  if hardSets ≤ 0 then 0
  else if lm.mav ≤ (hardSets : ℚ) then 100
  else 100 * (hardSets : ℚ) / lm.mav

/-- Ceiling of the evidence gate for a window: the highest maxScore among
the gating entries whose minSessions requirement is met, 0 when none is. -/
def gateCeiling (entries : List (ℕ × ℚ)) (sessions : ℕ) : ℚ :=
  entries.foldl (fun acc e => if e.1 ≤ sessions then max acc e.2 else acc) 0

/-- Modelled from the spec: applyEvidenceGating of src/lib/scoring.ts
(section 4.7): a pure ceiling that caps the combined score at the
maximum allowed by the gating configuration for the chosen window and
session count, never raising it. -/
def applyEvidenceGatingQ (cfg : ScoringConfig) (score : ℚ)
    (sessions window : ℕ) : ℚ :=
  min score (gateCeiling (cfg.evidenceGating window) sessions)

/-- Body profile fields used by the aggregation loops; every field is
optional because the Prisma columns are nullable. -/
structure ProfileData where
  bodyWeight : Option ℚ
  birthDate : Option ℤ
  sex : Option Sex
  trainingAgeYears : Option ℚ
deriving DecidableEq, Repr

/-- One exercise contributing to the muscle group under consideration,
with its best PR already resolved (route.ts lines 71 to 75): the
strength standard and the contribution row may be absent. -/
structure MuscleExercise where
  strengthStandard : Option ℚ
  contribution : Option ℚ
  bestPR : Option PRRecord
deriving DecidableEq, Repr

/-- JavaScript truthiness of an optional number: null and 0 are falsy. -/
def qTruthy (o : Option ℚ) : Bool :=
  match o with
  | none => false
  | some x => x ≠ 0

/-- Qualification test of the aggregation loop (route.ts line 77,
dashboard line 190): a best PR exists and bodyWeight, birthDate and sex
are all truthy on the profile. -/
def qualifies (p : ProfileData) (e : MuscleExercise) : Bool :=
  e.bestPR.isSome && qTruthy p.bodyWeight && p.birthDate.isSome && p.sex.isSome

/-- Contribution percentage with the JavaScript default
(muscleContributions[0]?.contributionPercentage ?? 50). -/
def contributionOf (e : MuscleExercise) : ℚ :=
  e.contribution.getD 50

/-- Strength standard with the JavaScript default
(exercise.strengthStandard || 1.0); 0 is falsy. -/
def standardOf (e : MuscleExercise) : ℚ :=
  match e.strengthStandard with
  | none => 1
  | some s => if s = 0 then 1 else s

/-- Days since a PR (route.ts line 86): floor of the millisecond
difference divided by 86400000. -/
def daysSince (now date : ℤ) : ℤ :=
  (now - date).fdiv 86400000

/-- Training age with the default of 1 (route.ts line 53). -/
def trainingAgeOf (p : ProfileData) : ℚ :=
  p.trainingAgeYears.getD 1

/-- The exercises of the list that pass the qualification test; the
aggregation loop accumulates weight exactly over these. -/
def qualifyingExercises (p : ProfileData) (exs : List MuscleExercise) :
    List MuscleExercise :=
  exs.filter (fun e => qualifies p e)

/-- Total accumulated weight (the denominator of the weighted average):
contribution / 100 summed over the qualifying exercises. -/
def weightTotal (p : ProfileData) (exs : List MuscleExercise) : ℚ :=
  ((qualifyingExercises p exs).map (fun e => contributionOf e / 100)).sum

/-- Highest contribution percentage among the qualifying exercises,
starting from 0 as the loop does. -/
def maxContributionOf (p : ProfileData) (exs : List MuscleExercise) : ℚ :=
  ((qualifyingExercises p exs).map contributionOf).foldl max 0

noncomputable section

/-- JavaScript rounding Math.round x = floor (x + 1/2), on reals. -/
def jsRoundR (x : ℝ) : ℤ := ⌊x + 1 / 2⌋

/-- Modelled from the spec: the allometric strength normalizer of
src/lib/scoring.ts (section 4.2): (estimated1RM / bodyWeight ^ 0.67) *
exerciseStandard.  Age is reserved for future adjustment curves and is a
documented no-op. -/
def allometricMetric (e1RM bw standard : ℚ) : ℝ :=
  ((e1RM : ℝ) / (bw : ℝ) ^ (0.67 : ℝ)) * (standard : ℝ)

/-- Piecewise-linear interpolation through the percentile band points,
clamped to the first and last band edges. -/
def interpolateBands : List PercentilePoint → ℝ → ℝ
  | [], _ => 0
  | [p], _ => (p.score : ℝ)
  | p :: q :: rest, x =>
      if x ≤ (p.metricValue : ℝ) then (p.score : ℝ)
      else if x ≤ (q.metricValue : ℝ) then
        (p.score : ℝ) +
          ((q.score : ℝ) - (p.score : ℝ)) * (x - (p.metricValue : ℝ)) /
            ((q.metricValue : ℝ) - (p.metricValue : ℝ))
      else interpolateBands (q :: rest) x

/-- Modelled from the spec: calculateStrengthScore of src/lib/scoring.ts
(sections 4.2 and 4.3): the allometric metric mapped through the
sex-specific percentile bands.  The age argument is a documented no-op
in this configuration. -/
def calculateStrengthScore (cfg : ScoringConfig) (e1RM bw : ℚ) (sex : Sex)
    (_age : ℤ) (standard : ℚ) : ℝ :=
  interpolateBands (cfg.percentileBands sex) (allometricMetric e1RM bw standard)

/-- Modelled from the spec: applyRecencyDecay of src/lib/scoring.ts
(section 4.4): score * 2 ^ (-daysSincePR / halfLife), floored at 0. -/
def applyRecencyDecay (cfg : ScoringConfig) (score : ℝ) (days : ℤ) : ℝ :=
  max 0 (score * (2 : ℝ) ^ (-(days : ℝ) / (cfg.halfLifeDays : ℝ)))

/-- Modelled from the spec: calculateMuscleScore of src/lib/scoring.ts
(section 4.6): strength * 0.75 + volume * 0.25, clamped to [0, 100]. -/
def calculateMuscleScore (strength volume : ℝ) : ℝ :=
  min 100 (max 0 (strength * 0.75 + volume * 0.25))

/-- Modelled from the spec: applyEvidenceGating on the real-valued
combined score (section 4.7), the same ceiling as applyEvidenceGatingQ. -/
def applyEvidenceGating (cfg : ScoringConfig) (score : ℝ)
    (sessions window : ℕ) : ℝ :=
  min score ((gateCeiling (cfg.evidenceGating window) sessions : ℚ) : ℝ)

/-- Decayed normalized strength score of one qualifying exercise
(route.ts lines 78 to 87): calculateStrengthScore followed by
applyRecencyDecay at the age of the best PR.  Returns 0 when the
exercise does not qualify. -/
def exerciseScore (cfg : ScoringConfig) (now : ℤ) (p : ProfileData)
    (e : MuscleExercise) : ℝ :=
  match e.bestPR, p.bodyWeight, p.sex with
  | some pr, some bw, some sex =>
      applyRecencyDecay cfg
        (calculateStrengthScore cfg pr.estimated1RM bw sex 0 (standardOf e))
        (daysSince now pr.date)
  | _, _, _ => 0

/-- Accumulator of the aggregation loop (route.ts lines 67 to 69):
weighted score sum, total weight and highest contribution seen. -/
structure AggState where
  weightedScoreSum : ℝ
  totalWeight : ℚ
  maxContribution : ℚ

/-- One iteration of the aggregation loop (route.ts lines 71 to 99):
qualifying exercises add score * contribution / 100 to the weighted sum,
contribution / 100 to the total weight, and raise the maximum
contribution; others leave the state unchanged. -/
def aggStep (cfg : ScoringConfig) (now : ℤ) (p : ProfileData)
    (st : AggState) (e : MuscleExercise) : AggState :=
  if qualifies p e then
    let score := exerciseScore cfg now p e
    let c := contributionOf e
    { weightedScoreSum := st.weightedScoreSum + score * ((c : ℝ) / 100),
      totalWeight := st.totalWeight + c / 100,
      maxContribution := max st.maxContribution c }
  else st

/-- The aggregation loop over the exercises of one muscle group. -/
def muscleStrengthAgg (cfg : ScoringConfig) (now : ℤ) (p : ProfileData)
    (exs : List MuscleExercise) : AggState :=
  exs.foldl (aggStep cfg now p) ⟨0, 0, 0⟩

/-- Scale factor applied to the weighted average (route.ts line 101):
min 1 (maxContribution / 60). -/
def scaleFactor (maxContribution : ℚ) : ℚ :=
  min 1 (maxContribution / 60)

/-- Raw per-muscle strength component (route.ts line 102): the weighted
average times the scale factor when the total weight is positive,
otherwise 0. -/
def rawStrengthScore (cfg : ScoringConfig) (now : ℤ) (p : ProfileData)
    (exs : List MuscleExercise) : ℝ :=
  if 0 < (muscleStrengthAgg cfg now p exs).totalWeight then
    ((muscleStrengthAgg cfg now p exs).weightedScoreSum /
        ((muscleStrengthAgg cfg now p exs).totalWeight : ℝ)) *
      ((scaleFactor (muscleStrengthAgg cfg now p exs).maxContribution : ℚ) : ℝ)
  else 0

/-- Total accumulated weighted score (the numerator of the weighted
average): decayed score times contribution / 100 summed over the
qualifying exercises. -/
def weightedScoreTotal (cfg : ScoringConfig) (now : ℤ) (p : ProfileData)
    (exs : List MuscleExercise) : ℝ :=
  ((qualifyingExercises p exs).map
    (fun e => exerciseScore cfg now p e * ((contributionOf e : ℝ) / 100))).sum

/-- Volume score of the pipeline (route.ts line 133): the fractional
hard-set count is rounded before the volume scorer is applied. -/
def muscleVolumeScore (cfg : ScoringConfig) (p : ProfileData)
    (logs : List ExerciseLogForMuscle) : ℚ :=
  calculateVolumeScore cfg (jsRound (hardSetsForMuscle logs)) (trainingAgeOf p)

/-- Combined strength and volume score of the pipeline (route.ts line
134): calculateMuscleScore on the raw strength and volume components. -/
def muscleCombinedScore (cfg : ScoringConfig) (now : ℤ) (p : ProfileData)
    (exs : List MuscleExercise) (logs : List ExerciseLogForMuscle) : ℝ :=
  calculateMuscleScore (rawStrengthScore cfg now p exs)
    ((muscleVolumeScore cfg p logs : ℚ) : ℝ)

/-- Gated combined score of the pipeline (route.ts lines 136 to 138):
evidence gating applied with the more favorable window. -/
def muscleGatedScore (cfg : ScoringConfig) (now : ℤ) (p : ProfileData)
    (exs : List MuscleExercise) (logs : List ExerciseLogForMuscle)
    (s28 s56 : ℕ) : ℝ :=
  applyEvidenceGating cfg (muscleCombinedScore cfg now p exs logs)
    (effectiveSessions s28 s56) (effectiveWindow s28 s56)

/-- Final per-muscle composite score of the pipeline (route.ts line 140,
dashboard line 239): Math.min 100 (Math.round gated). -/
def muscleFinalScore (cfg : ScoringConfig) (now : ℤ) (p : ProfileData)
    (exs : List MuscleExercise) (logs : List ExerciseLogForMuscle)
    (s28 s56 : ℕ) : ℤ :=
  min 100 (jsRoundR (muscleGatedScore cfg now p exs logs s28 s56))

end

/-- Claim-side count of hard sets in a list of sets. -/
def hardSetCount (sets : List SetLog) : ℕ :=
  (sets.filter (fun s => isHardSet s)).length

/-- Claim-side weekly hard-set total: for every exercise log whose
contribution row is present and at least 10, contribution / 100 times
the number of hard sets. -/
def hardSetsSpec (logs : List ExerciseLogForMuscle) : ℚ :=
  (logs.map
    (fun el =>
      match el.contribution with
      | none => 0
      | some c => if 10 ≤ c then c / 100 * (hardSetCount el.sets : ℚ) else 0)).sum

/-- Concrete configuration fixture used by the witnesses: contiguous
rank bands over [0, 100], one linear percentile band, one volume
landmark bracket, half life 28, one gating entry allowing up to 100. -/
def cfgFixture : ScoringConfig where
  rankTiers := fun t =>
    match t with
    | .bronze => ⟨0, 29⟩
    | .silver => ⟨30, 54⟩
    | .gold => ⟨55, 74⟩
    | .diamond => ⟨75, 89⟩
    | .apex => ⟨90, 96⟩
    | .mythic => ⟨97, 100⟩
  percentileBands := fun _ => [⟨0, 0⟩, ⟨10, 100⟩]
  volumeLandmarks := fun _ => ⟨6, 12, 20⟩
  halfLifeDays := 28
  evidenceGating := fun _ => [(0, 100)]

/-- Concrete complete profile used by the witnesses. -/
def profileFixture : ProfileData :=
  { bodyWeight := some 1, birthDate := some 0, sex := some Sex.male,
    trainingAgeYears := some 1 }

/-- Concrete profile with a missing sex field. -/
def profileNoSex : ProfileData :=
  { bodyWeight := some 1, birthDate := some 0, sex := none,
    trainingAgeYears := some 1 }

/-- Concrete qualifying exercise used by the witnesses: standard 1,
contribution 60, best PR with estimated 1RM 5 set at time 0. -/
def exerciseFixture : MuscleExercise :=
  { strengthStandard := some 1, contribution := some 60,
    bestPR := some { estimated1RM := 5, date := 0 } }

/-! Theorems. -/

/-- C1: the evidence-gating step uses as effective session count the
higher of the 28-day and 56-day counts, and picks the 56-day window
whenever the 56-day count is at least the 28-day count (ties favor 56),
picking the 28-day window exactly when its count is strictly higher. -/
theorem evidence_window_selection (s28 s56 : ℕ) :
    effectiveSessions s28 s56 = max s28 s56 ∧
    (effectiveWindow s28 s56 = 56 ↔ s28 ≤ s56) ∧
    (effectiveWindow s28 s56 = 28 ↔ s56 < s28) := by
  refine ⟨rfl, ?_, ?_⟩ <;> unfold effectiveWindow <;> split <;> omega

/-- C3: the overall score feeding the overall rank is the simple
arithmetic mean of all per-muscle scores (zero-scored untrained groups
included), and on the example scores [80, 0, 0, 0, 0] the average is
16, not 80. -/
theorem overall_score_simple_mean (cfg : ScoringConfig) (scores : List ℤ)
    (h : scores ≠ []) :
    avgScore scores = (scores.sum : ℚ) / scores.length ∧
    overallRank cfg scores = determineRank cfg ((scores.sum : ℚ) / scores.length) ∧
    avgScore [80, 0, 0, 0, 0] = 16 := by
  have hlen : (max 1 scores.length : ℕ) = scores.length := by
    have := List.length_pos.mpr h
    omega
  refine ⟨?_, ?_, ?_⟩
  · unfold avgScore
    rw [hlen]
  · unfold overallRank avgScore
    rw [hlen]
  · unfold avgScore
    norm_num

/-- C3 witness: the mean formula and the worked example, instantiated on
the five-element score list. -/
theorem overall_score_simple_mean_witness :
    ([80, 0, 0, 0, 0] : List ℤ) ≠ [] ∧ avgScore [80, 0, 0, 0, 0] = 16 :=
  ⟨by decide, (overall_score_simple_mean cfgFixture [80, 0, 0, 0, 0] (by decide)).2.2⟩

/-- C10 counterexample: with a stored streak of 0 and the most recent
earlier session on the same calendar day, the code stores 1 rather than
keeping the streak unchanged at 0. -/
theorem streak_same_day_counterexample :
    updateStreak (some 0) 0 (some 0) = 1 ∧ (1 : ℕ) ≠ 0 := by
  exact ⟨rfl, by decide⟩

/-- C10 amended: with no earlier session the streak becomes 1; on the
same calendar day it becomes max 1 (stored streak), i.e. it is kept
unchanged only when it is already at least 1 (the code coerces a falsy
0 or missing value to 1); one day later it increments by 1 (missing
treated as 0); a gap of two or more days resets it to 1. -/
theorem streak_update_cases (lastDay : Option ℤ) (newDay : ℤ) (cur : Option ℕ) :
    (lastDay = none → updateStreak lastDay newDay cur = 1) ∧
    (∀ d, lastDay = some d → newDay - d = 0 →
      updateStreak lastDay newDay cur = max 1 (cur.getD 0)) ∧
    (∀ d, lastDay = some d → newDay - d = 1 →
      updateStreak lastDay newDay cur = cur.getD 0 + 1) ∧
    (∀ d, lastDay = some d → 2 ≤ newDay - d →
      updateStreak lastDay newDay cur = 1) := by
  have hjs : jsOrOne cur = max 1 (cur.getD 0) := by
    cases cur with
    | none => rfl
    | some n =>
        simp only [jsOrOne, Option.getD_some]
        split <;> omega
  refine ⟨?_, ?_, ?_, ?_⟩
  · rintro rfl
    rfl
  · rintro d rfl hd
    simp only [updateStreak, hd, hjs]
    norm_num
  · rintro d rfl hd
    simp only [updateStreak, hd]
    norm_num
  · rintro d rfl hd
    simp only [updateStreak]
    rw [if_neg (by omega), if_neg (by omega)]

/-- C10 witness: a consecutive-day session increments the stored streak
of 4 to 5. -/
theorem streak_update_cases_witness :
    updateStreak (some 0) 1 (some 4) = 5 :=
  (streak_update_cases (some 0) 1 (some 4)).2.2.1 0 rfl (by norm_num)

lemma hardSets_inner (c : ℚ) (sets : List SetLog) :
    ∀ acc : ℚ,
      sets.foldl (fun a s => if isHardSet s then a + c / 100 else a) acc =
        acc + c / 100 * (hardSetCount sets : ℚ) := by
  induction sets with
  | nil => intro acc; simp [hardSetCount]
  | cons s rest ih =>
      intro acc
      rw [List.foldl_cons]
      by_cases hh : isHardSet s = true
      · rw [if_pos hh, ih]
        have hcnt : hardSetCount (s :: rest) = hardSetCount rest + 1 := by
          simp [hardSetCount, List.filter_cons_of_pos hh]
        rw [hcnt]
        push_cast
        ring
      · rw [if_neg hh, ih]
        have hcnt : hardSetCount (s :: rest) = hardSetCount rest := by
          simp [hardSetCount, List.filter_cons_of_neg hh]
        rw [hcnt]

lemma hardSets_outer (logs : List ExerciseLogForMuscle) :
    ∀ acc : ℚ,
      logs.foldl
        (fun acc el =>
          match el.contribution with
          | none => acc
          | some c =>
              if c < 10 then acc
              else el.sets.foldl
                (fun a s => if isHardSet s then a + c / 100 else a) acc)
        acc = acc + hardSetsSpec logs := by
  induction logs with
  | nil => intro acc; simp [hardSetsSpec]
  | cons el rest ih =>
      intro acc
      have hspec : hardSetsSpec (el :: rest) =
          (match el.contribution with
           | none => 0
           | some c => if 10 ≤ c then c / 100 * (hardSetCount el.sets : ℚ) else 0) +
            hardSetsSpec rest := by
        simp [hardSetsSpec]
      rw [List.foldl_cons, ih, hspec]
      rcases el.contribution with _ | c
      · show acc + hardSetsSpec rest = acc + (0 + hardSetsSpec rest)
        ring
      · show (if c < 10 then acc
            else el.sets.foldl
              (fun a s => if isHardSet s then a + c / 100 else a) acc) +
            hardSetsSpec rest =
          acc + ((if 10 ≤ c then c / 100 * (hardSetCount el.sets : ℚ) else 0) +
            hardSetsSpec rest)
        rcases lt_or_le c 10 with h10 | h10
        · rw [if_pos h10, if_neg (not_le.mpr h10)]
          ring
        · rw [if_neg (not_lt.mpr h10), if_pos h10, hardSets_inner]
          ring

/-- C4: a logged set (stored through the POST normalization) counts as a
hard set exactly when it is not a warmup and either has no RPE or has
RPE at least 7; the weekly total adds contribution / 100 per hard set
for contribution rows of at least 10 percent; and the fractional total
is rounded before being handed to the volume scorer. -/
theorem hard_set_counting (cfg : ScoringConfig) (p : ProfileData)
    (logs : List ExerciseLogForMuscle) (s : RawSet) :
    (isHardSet (normalizeSet s) = true ↔
      s.isWarmup = false ∧
        ((normalizeSet s).rpe = none ∨
          ∃ r, (normalizeSet s).rpe = some r ∧ 7 ≤ r)) ∧
    hardSetsForMuscle logs = hardSetsSpec logs ∧
    muscleVolumeScore cfg p logs =
      calculateVolumeScore cfg (jsRound (hardSetsForMuscle logs)) (trainingAgeOf p) := by
  refine ⟨?_, ?_, rfl⟩
  · rcases s with ⟨w, reps, rpe, warm⟩
    rcases rpe with _ | r
    · simp [normalizeSet, normalizeRpe, isHardSet]
    · by_cases h0 : r = 0
      · subst h0
        simp [normalizeSet, normalizeRpe, isHardSet]
      · simp [normalizeSet, normalizeRpe, isHardSet, h0]
  · unfold hardSetsForMuscle
    rw [hardSets_outer, zero_add]

lemma agg_spec (cfg : ScoringConfig) (now : ℤ) (p : ProfileData)
    (exs : List MuscleExercise) :
    ∀ st : AggState,
      (exs.foldl (aggStep cfg now p) st).weightedScoreSum =
        st.weightedScoreSum + weightedScoreTotal cfg now p exs ∧
      (exs.foldl (aggStep cfg now p) st).totalWeight =
        st.totalWeight + weightTotal p exs ∧
      (exs.foldl (aggStep cfg now p) st).maxContribution =
        ((qualifyingExercises p exs).map contributionOf).foldl max
          st.maxContribution := by
  induction exs with
  | nil =>
      intro st
      simp [weightedScoreTotal, weightTotal, qualifyingExercises]
  | cons e rest ih =>
      intro st
      rw [List.foldl_cons]
      by_cases hq : qualifies p e = true
      · have hfil : qualifyingExercises p (e :: rest) =
            e :: qualifyingExercises p rest := by
          simp [qualifyingExercises, List.filter_cons_of_pos hq]
        have hstep : aggStep cfg now p st e =
            { weightedScoreSum :=
                st.weightedScoreSum +
                  exerciseScore cfg now p e * ((contributionOf e : ℝ) / 100),
              totalWeight := st.totalWeight + contributionOf e / 100,
              maxContribution := max st.maxContribution (contributionOf e) } := by
          unfold aggStep
          rw [if_pos hq]
        obtain ⟨h1, h2, h3⟩ := ih (aggStep cfg now p st e)
        refine ⟨?_, ?_, ?_⟩
        · rw [h1, hstep]
          simp only [weightedScoreTotal, hfil, List.map_cons, List.sum_cons]
          ring
        · rw [h2, hstep]
          simp only [weightTotal, hfil, List.map_cons, List.sum_cons]
          ring
        · rw [h3, hstep]
          simp only [hfil, List.map_cons, List.foldl_cons]
      · have hfil : qualifyingExercises p (e :: rest) =
            qualifyingExercises p rest := by
          simp [qualifyingExercises, List.filter_cons_of_neg hq]
        have hstep : aggStep cfg now p st e = st := by
          unfold aggStep
          rw [if_neg hq]
        rw [hstep]
        obtain ⟨h1, h2, h3⟩ := ih st
        refine ⟨?_, ?_, ?_⟩
        · rw [h1]
          simp only [weightedScoreTotal, hfil]
        · rw [h2]
          simp only [weightTotal, hfil]
        · rw [h3]
          simp only [hfil]

lemma muscleStrengthAgg_proj (cfg : ScoringConfig) (now : ℤ) (p : ProfileData)
    (exs : List MuscleExercise) :
    (muscleStrengthAgg cfg now p exs).weightedScoreSum =
      weightedScoreTotal cfg now p exs ∧
    (muscleStrengthAgg cfg now p exs).totalWeight = weightTotal p exs ∧
    (muscleStrengthAgg cfg now p exs).maxContribution =
      maxContributionOf p exs := by
  obtain ⟨h1, h2, h3⟩ := agg_spec cfg now p exs ⟨0, 0, 0⟩
  unfold muscleStrengthAgg
  refine ⟨?_, ?_, ?_⟩
  · rw [h1]
    exact zero_add _
  · rw [h2]
    exact zero_add _
  · rw [h3]
    rfl

/-- C2: the per-muscle strength component is the contribution-weighted
average of the qualifying decayed strength scores (weights contribution
over 100) times the scale factor min 1 (maxContribution / 60); a
maximum contribution of 60 gives scale factor 1 and one of 30 gives
scale factor 1/2. -/
theorem strength_weighted_average (cfg : ScoringConfig) (now : ℤ)
    (p : ProfileData) (exs : List MuscleExercise)
    (h : 0 < weightTotal p exs) :
    rawStrengthScore cfg now p exs =
      weightedScoreTotal cfg now p exs / (weightTotal p exs : ℝ) *
        ((scaleFactor (maxContributionOf p exs) : ℚ) : ℝ) ∧
    scaleFactor 60 = 1 ∧ scaleFactor 30 = 1 / 2 := by
  refine ⟨?_, ?_, ?_⟩
  · obtain ⟨h1, h2, h3⟩ := muscleStrengthAgg_proj cfg now p exs
    unfold rawStrengthScore
    rw [h1, h2, h3, if_pos h]
  · unfold scaleFactor
    rw [show (60 : ℚ) / 60 = 1 by norm_num]
    exact min_self 1
  · unfold scaleFactor
    rw [show (30 : ℚ) / 60 = 1 / 2 by norm_num]
    exact min_eq_right (by norm_num)

lemma qualifies_fixture : qualifies profileFixture exerciseFixture = true := rfl

lemma qualifyingExercises_fixture :
    qualifyingExercises profileFixture [exerciseFixture] = [exerciseFixture] := by
  simp [qualifyingExercises, List.filter_cons, qualifies_fixture]

lemma weightTotal_fixture :
    weightTotal profileFixture [exerciseFixture] = 3 / 5 := by
  rw [weightTotal, qualifyingExercises_fixture]
  show contributionOf exerciseFixture / 100 + 0 = 3 / 5
  norm_num [contributionOf, exerciseFixture]

lemma weightTotal_fixture_pos :
    0 < weightTotal profileFixture [exerciseFixture] := by
  rw [weightTotal_fixture]
  norm_num

/-- C2 witness: the weighted-average identity at a concrete qualifying
exercise with contribution 60. -/
theorem strength_weighted_average_witness :
    0 < weightTotal profileFixture [exerciseFixture] ∧
    rawStrengthScore cfgFixture 0 profileFixture [exerciseFixture] =
      weightedScoreTotal cfgFixture 0 profileFixture [exerciseFixture] /
        (weightTotal profileFixture [exerciseFixture] : ℝ) *
        ((scaleFactor (maxContributionOf profileFixture [exerciseFixture]) : ℚ) : ℝ) :=
  ⟨weightTotal_fixture_pos,
    (strength_weighted_average cfgFixture 0 profileFixture [exerciseFixture]
      weightTotal_fixture_pos).1⟩

/-- C5: an exercise with no PR, or a profile missing bodyWeight,
birthDate or sex, never qualifies; the loop totals range over the
qualifying exercises only (so such exercises add to neither numerator
nor denominator); and a zero total weight yields strength score 0
rather than an undefined value. -/
theorem missing_data_zero_score (cfg : ScoringConfig) (now : ℤ)
    (p : ProfileData) (e : MuscleExercise) (exs : List MuscleExercise)
    (hmiss : e.bestPR = none ∨ p.bodyWeight = none ∨ p.birthDate = none ∨
      p.sex = none) :
    qualifies p e = false ∧
    (muscleStrengthAgg cfg now p exs).weightedScoreSum =
      weightedScoreTotal cfg now p exs ∧
    (muscleStrengthAgg cfg now p exs).totalWeight = weightTotal p exs ∧
    ((muscleStrengthAgg cfg now p exs).totalWeight = 0 →
      rawStrengthScore cfg now p exs = 0) := by
  obtain ⟨h1, h2, h3⟩ := muscleStrengthAgg_proj cfg now p exs
  refine ⟨?_, h1, h2, ?_⟩
  · unfold qualifies
    rcases hmiss with h | h | h | h <;> simp [h, qTruthy]
  · intro h0
    unfold rawStrengthScore
    rw [h0, if_neg (lt_irrefl (0 : ℚ))]

/-- C5 witness: with the sex field missing, the fixture exercise does
not qualify and the strength score of the singleton list is 0. -/
theorem missing_data_zero_score_witness :
    qualifies profileNoSex exerciseFixture = false ∧
    rawStrengthScore cfgFixture 0 profileNoSex [exerciseFixture] = 0 := by
  have h := missing_data_zero_score cfgFixture 0 profileNoSex exerciseFixture
    [exerciseFixture] (Or.inr (Or.inr (Or.inr rfl)))
  exact ⟨h.1, h.2.2.2 (h.2.2.1.trans (by rfl))⟩

lemma bestPR_step (acc : Option PRRecord) (pr : PRRecord) :
    ∃ a,
      bestPRStep acc pr = some a ∧
      pr.estimated1RM ≤ a.estimated1RM ∧
      (a = pr ∨ acc = some a) ∧
      (∀ c, acc = some c → c.estimated1RM ≤ a.estimated1RM) := by
  rcases acc with _ | b
  · exact ⟨pr, rfl, le_refl _, Or.inl rfl, fun c hc => by cases hc⟩
  · by_cases hlt : pr.estimated1RM > b.estimated1RM
    · refine ⟨pr, ?_, le_refl _, Or.inl rfl, ?_⟩
      · simp only [bestPRStep]
        rw [if_pos hlt]
      · rintro c ⟨rfl⟩
        exact le_of_lt hlt
    · refine ⟨b, ?_, le_of_not_lt hlt, Or.inr rfl, ?_⟩
      · simp only [bestPRStep]
        rw [if_neg hlt]
      · rintro c ⟨rfl⟩
        exact le_refl _

lemma bestPR_fold_spec (prs : List PRRecord) :
    ∀ (acc : Option PRRecord) (b : PRRecord),
      prs.foldl bestPRStep acc = some b →
      (b ∈ prs ∨ acc = some b) ∧
      (∀ pr ∈ prs, pr.estimated1RM ≤ b.estimated1RM) ∧
      (∀ a, acc = some a → a.estimated1RM ≤ b.estimated1RM) := by
  induction prs with
  | nil =>
      intro acc b h
      refine ⟨Or.inr h, by simp, ?_⟩
      rintro a rfl
      cases h
      exact le_refl _
  | cons pr rest ih =>
      intro acc b h
      rw [List.foldl_cons] at h
      obtain ⟨a, ha, hle, hmem, hacc⟩ := bestPR_step acc pr
      rw [ha] at h
      obtain ⟨m, hall, hstep⟩ := ih (some a) b h
      have hab : a.estimated1RM ≤ b.estimated1RM := hstep a rfl
      refine ⟨?_, ?_, ?_⟩
      · rcases m with hm | hm
        · exact Or.inl (List.mem_cons_of_mem pr hm)
        · rcases hmem with hp | hp
          · injection hm with hm
            exact Or.inl (hm ▸ hp ▸ List.mem_cons_self pr rest)
          · injection hm with hm
            exact Or.inr (hm ▸ hp)
      · intro q hq
        rcases List.mem_cons.mp hq with rfl | hq
        · exact le_trans hle hab
        · exact hall q hq
      · intro c hc
        exact le_trans (hacc c hc) hab

lemma bestPROf_spec (prs : List PRRecord) (b : PRRecord)
    (h : bestPROf prs = some b) :
    b ∈ prs ∧ ∀ pr ∈ prs, pr.estimated1RM ≤ b.estimated1RM := by
  unfold bestPROf at h
  obtain ⟨m, hall, _⟩ := bestPR_fold_spec prs none b h
  rcases m with hm | hm
  · exact ⟨hm, hall⟩
  · cases hm

lemma estimate1RM_pos (w : ℚ) (hw : 0 < w) (r : ℕ) : 0 < estimate1RM w r := by
  unfold estimate1RM
  split
  · exact hw
  · have h1 : (0 : ℚ) < 1 + (r : ℚ) / 30 := by positivity
    exact mul_pos hw h1

lemma bestSession_fold_ge (sets : List SetLog) :
    ∀ acc : ℚ,
      acc ≤ sets.foldl
        (fun acc s =>
          if s.isWarmup then acc else max acc (estimate1RM s.weight s.reps))
        acc ∧
      ∀ s ∈ sets, s.isWarmup = false →
        estimate1RM s.weight s.reps ≤
          sets.foldl
            (fun acc s =>
              if s.isWarmup then acc else max acc (estimate1RM s.weight s.reps))
            acc := by
  induction sets with
  | nil =>
      intro acc
      exact ⟨le_refl _, by simp⟩
  | cons t rest ih =>
      intro acc
      rw [List.foldl_cons]
      have hinit : acc ≤
          (if t.isWarmup then acc else max acc (estimate1RM t.weight t.reps)) := by
        split
        · exact le_refl _
        · exact le_max_left _ _
      obtain ⟨h1, h2⟩ :=
        ih (if t.isWarmup then acc else max acc (estimate1RM t.weight t.reps))
      refine ⟨le_trans hinit h1, ?_⟩
      intro s hs hw
      rcases List.mem_cons.mp hs with rfl | hs
      · refine le_trans ?_ h1
        rw [hw]
        exact le_max_right _ _
      · exact h2 s hs hw

lemma bestSessionE1RM_pos (sets : List SetLog)
    (hw : ∀ s ∈ sets, 0 < s.weight) (hs : ∃ s ∈ sets, s.isWarmup = false) :
    0 < bestSessionE1RM sets := by
  obtain ⟨s, hmem, hwarm⟩ := hs
  have h1 := (bestSession_fold_ge sets 0).2 s hmem hwarm
  exact lt_of_lt_of_le (estimate1RM_pos s.weight (hw s hmem) s.reps) h1

/-- C8: the PR used for scoring is the stored record with the highest
estimated 1RM; after logging a session with at least one non-warmup set
of positive weight, a new PR is created exactly when no PR exists yet or
the best non-warmup session estimate strictly exceeds the highest
existing estimated 1RM; when not created, the history is unchanged. -/
theorem pr_selection_and_creation (prs : List PRRecord) (sets : List SetLog)
    (now : ℤ) (hw : ∀ s ∈ sets, 0 < s.weight)
    (hs : ∃ s ∈ sets, s.isWarmup = false) :
    (∀ b, bestPROf prs = some b →
      b ∈ prs ∧ ∀ pr ∈ prs, pr.estimated1RM ≤ b.estimated1RM) ∧
    (prCreated prs sets = true ↔
      bestPROf prs = none ∨
        ∃ b, bestPROf prs = some b ∧
          b.estimated1RM < bestSessionE1RM sets) ∧
    (prCreated prs sets = false → newPRHistory prs sets now = prs) := by
  refine ⟨fun b hb => bestPROf_spec prs b hb, ?_, ?_⟩
  · have hpos := bestSessionE1RM_pos sets hw hs
    unfold prCreated
    rcases hb : bestPROf prs with _ | b
    · simp [hpos]
    · simp [hpos]
  · intro h
    unfold newPRHistory
    rw [if_neg]
    rw [h]
    exact Bool.false_ne_true

/-- C8 witness: a session with one non-warmup 100 by 5 set and no
existing PR creates a PR record. -/
theorem pr_selection_and_creation_witness :
    prCreated []
      [{ weight := 100, reps := 5, rpe := none, isWarmup := false }] = true :=
  ((pr_selection_and_creation []
      [{ weight := 100, reps := 5, rpe := none, isWarmup := false }] 0
      (by intro s hs
          rcases List.mem_singleton.mp hs with rfl
          norm_num)
      ⟨{ weight := 100, reps := 5, rpe := none, isWarmup := false },
        List.mem_singleton.mpr rfl, rfl⟩).2.1).mpr (Or.inl rfl)

/-- C9: within any tier that has a successor, progress is
(score - tierMin) / (nextTierMin - tierMin) * 100; at the top tier
(mythic, which has no successor) the resolved rank is mythic and the
progress is 100 whenever the score is at or above the mythic minimum. -/
theorem rank_progress_within_tier (cfg : ScoringConfig) (score : ℚ) :
    (∀ nt, (determineRank cfg score).next = some nt →
      rankProgress cfg score =
        (score - (cfg.rankTiers (determineRank cfg score)).min) /
          ((cfg.rankTiers nt).min -
            (cfg.rankTiers (determineRank cfg score)).min) * 100) ∧
    ((cfg.rankTiers .mythic).min ≤ score →
      determineRank cfg score = .mythic ∧ rankProgress cfg score = 100) := by
  constructor
  · intro nt h
    unfold rankProgress
    rw [h]
  · intro h
    have hd : determineRank cfg score = .mythic := by
      unfold determineRank
      rw [if_pos h]
    refine ⟨hd, ?_⟩
    unfold rankProgress
    rw [hd]
    rfl

/-- C9 witness: on the fixture configuration a score of 98 resolves to
mythic with progress 100. -/
theorem rank_progress_within_tier_witness :
    determineRank cfgFixture 98 = RankTier.mythic ∧
    rankProgress cfgFixture 98 = 100 :=
  (rank_progress_within_tier cfgFixture 98).2 (by norm_num [cfgFixture])

lemma gate_fold_ge (sessions : ℕ) (entries : List (ℕ × ℚ)) :
    ∀ acc : ℚ,
      acc ≤ entries.foldl
        (fun acc e => if e.1 ≤ sessions then max acc e.2 else acc) acc := by
  induction entries with
  | nil => intro acc; exact le_refl _
  | cons e rest ih =>
      intro acc
      rw [List.foldl_cons]
      refine le_trans ?_ (ih _)
      split
      · exact le_max_left _ _
      · exact le_refl _

lemma gateCeiling_nonneg (entries : List (ℕ × ℚ)) (sessions : ℕ) :
    0 ≤ gateCeiling entries sessions :=
  gate_fold_ge sessions entries 0

lemma muscleCombined_bounds (cfg : ScoringConfig) (now : ℤ) (p : ProfileData)
    (exs : List MuscleExercise) (logs : List ExerciseLogForMuscle) :
    0 ≤ muscleCombinedScore cfg now p exs logs ∧
    muscleCombinedScore cfg now p exs logs ≤ 100 := by
  unfold muscleCombinedScore calculateMuscleScore
  exact ⟨le_min (by norm_num) (le_max_left _ _), min_le_left _ _⟩

/-- C6: the final per-muscle composite score produced by the pipeline
always lies in [0, 100]. -/
theorem final_score_in_range (cfg : ScoringConfig) (now : ℤ) (p : ProfileData)
    (exs : List MuscleExercise) (logs : List ExerciseLogForMuscle)
    (s28 s56 : ℕ) :
    0 ≤ muscleFinalScore cfg now p exs logs s28 s56 ∧
    muscleFinalScore cfg now p exs logs s28 s56 ≤ 100 := by
  obtain ⟨hc0, hc100⟩ := muscleCombined_bounds cfg now p exs logs
  have hg0 : 0 ≤ muscleGatedScore cfg now p exs logs s28 s56 := by
    unfold muscleGatedScore applyEvidenceGating
    refine le_min hc0 ?_
    exact_mod_cast gateCeiling_nonneg _ _
  have hg100 : muscleGatedScore cfg now p exs logs s28 s56 ≤ 100 := by
    unfold muscleGatedScore applyEvidenceGating
    exact le_trans (min_le_left _ _) hc100
  unfold muscleFinalScore
  constructor
  · refine le_min (by norm_num) ?_
    unfold jsRoundR
    refine Int.le_floor.mpr ?_
    push_cast
    linarith
  · exact min_le_left _ _

lemma strength_fixture_eval :
    calculateStrengthScore cfgFixture 5 1 Sex.male 0 1 = 50 := by
  unfold calculateStrengthScore
  have hm : allometricMetric 5 1 1 = 5 := by
    unfold allometricMetric
    rw [show ((1 : ℚ) : ℝ) = 1 by norm_num, Real.one_rpow]
    norm_num
  rw [hm]
  show interpolateBands [⟨0, 0⟩, ⟨10, 100⟩] 5 = 50
  unfold interpolateBands
  rw [if_neg (by norm_num), if_pos (by norm_num)]
  norm_num

lemma decay_fixture_zero : applyRecencyDecay cfgFixture 50 0 = 50 := by
  show max 0 ((50 : ℝ) * (2 : ℝ) ^ (-(((0 : ℤ) : ℝ)) / ((28 : ℚ) : ℝ))) = 50
  rw [show (-(((0 : ℤ) : ℝ)) / ((28 : ℚ) : ℝ)) = (0 : ℝ) by norm_num,
    Real.rpow_zero, mul_one]
  exact max_eq_right (by norm_num)

lemma decay_fixture_halflife : applyRecencyDecay cfgFixture 50 28 = 25 := by
  show max 0 ((50 : ℝ) * (2 : ℝ) ^ (-(((28 : ℤ) : ℝ)) / ((28 : ℚ) : ℝ))) = 25
  rw [show (-(((28 : ℤ) : ℝ)) / ((28 : ℚ) : ℝ)) = (-1 : ℝ) by norm_num,
    Real.rpow_neg_one, show (50 : ℝ) * 2⁻¹ = 25 by norm_num]
  exact max_eq_right (by norm_num)

lemma exerciseScore_fixture (now : ℤ) :
    exerciseScore cfgFixture now profileFixture exerciseFixture =
      applyRecencyDecay cfgFixture 50 (daysSince now 0) := by
  show applyRecencyDecay cfgFixture
      (calculateStrengthScore cfgFixture 5 1 Sex.male 0 (standardOf exerciseFixture))
      (daysSince now 0) = _
  rw [show standardOf exerciseFixture = 1 from rfl, strength_fixture_eval]

lemma rawStrength_fixture (now : ℤ) :
    rawStrengthScore cfgFixture now profileFixture [exerciseFixture] =
      exerciseScore cfgFixture now profileFixture exerciseFixture := by
  obtain ⟨h1, h2, h3⟩ :=
    muscleStrengthAgg_proj cfgFixture now profileFixture [exerciseFixture]
  have hmax : maxContributionOf profileFixture [exerciseFixture] = 60 := by
    rw [maxContributionOf, qualifyingExercises_fixture]
    show max 0 (contributionOf exerciseFixture) = 60
    norm_num [contributionOf, exerciseFixture]
  have hW : weightedScoreTotal cfgFixture now profileFixture [exerciseFixture] =
      exerciseScore cfgFixture now profileFixture exerciseFixture * (60 / 100 : ℝ) := by
    rw [weightedScoreTotal, qualifyingExercises_fixture]
    show exerciseScore cfgFixture now profileFixture exerciseFixture *
        ((contributionOf exerciseFixture : ℝ) / 100) + 0 = _
    norm_num [contributionOf, exerciseFixture]
  have hsf : scaleFactor 60 = 1 := by
    unfold scaleFactor
    rw [show (60 : ℚ) / 60 = 1 by norm_num]
    exact min_self 1
  unfold rawStrengthScore
  rw [h1, h2, h3, if_pos weightTotal_fixture_pos, weightTotal_fixture, hmax, hW,
    hsf]
  push_cast
  ring_nf

lemma volume_fixture : muscleVolumeScore cfgFixture profileFixture [] = 0 := by
  show calculateVolumeScore cfgFixture (jsRound (hardSetsForMuscle []))
    (trainingAgeOf profileFixture) = 0
  have h : jsRound (hardSetsForMuscle []) = 0 := by
    show jsRound 0 = 0
    unfold jsRound
    rw [show (0 : ℚ) + 1 / 2 = 1 / 2 by norm_num]
    rw [Int.floor_eq_zero_iff]
    constructor <;> norm_num
  rw [h]
  rfl

lemma gate_fixture_eval (x : ℝ) (hx : x ≤ 100) :
    applyEvidenceGating cfgFixture x (effectiveSessions 10 10)
      (effectiveWindow 10 10) = x := by
  show min x ((gateCeiling (cfgFixture.evidenceGating (effectiveWindow 10 10))
    (effectiveSessions 10 10) : ℚ) : ℝ) = x
  have h : gateCeiling (cfgFixture.evidenceGating (effectiveWindow 10 10))
      (effectiveSessions 10 10) = 100 := by
    show (if (0 ≤ 10) then max (0 : ℚ) 100 else 0) = 100
    rw [if_pos (by norm_num)]
    exact max_eq_right (by norm_num)
  rw [h]
  exact min_eq_left (by exact_mod_cast hx)

lemma final_fixture (now : ℤ) (S : ℝ)
    (hS : rawStrengthScore cfgFixture now profileFixture [exerciseFixture] = S)
    (h0 : 0 ≤ S) (h100 : S ≤ 100) :
    muscleFinalScore cfgFixture now profileFixture [exerciseFixture] [] 10 10 =
      min 100 ⌊S * 0.75 + 1 / 2⌋ := by
  have hcomb : muscleCombinedScore cfgFixture now profileFixture
      [exerciseFixture] [] = S * 0.75 := by
    unfold muscleCombinedScore
    rw [hS, volume_fixture, calculateMuscleScore]
    rw [show ((((0 : ℚ) : ℝ)) : ℝ) * 0.25 = 0 by norm_num, add_zero]
    rw [max_eq_right (by positivity)]
    exact min_eq_right (by nlinarith)
  have hgate : muscleGatedScore cfgFixture now profileFixture
      [exerciseFixture] [] 10 10 = S * 0.75 := by
    unfold muscleGatedScore
    rw [hcomb]
    exact gate_fixture_eval _ (by nlinarith)
  unfold muscleFinalScore jsRoundR
  rw [hgate]

lemma final_fixture_day0 :
    muscleFinalScore cfgFixture 0 profileFixture [exerciseFixture] [] 10 10 =
      38 := by
  have hS : rawStrengthScore cfgFixture 0 profileFixture [exerciseFixture] = 50 := by
    rw [rawStrength_fixture, exerciseScore_fixture,
      show daysSince 0 0 = 0 from rfl, decay_fixture_zero]
  rw [final_fixture 0 50 hS (by norm_num) (by norm_num)]
  rw [show (50 : ℝ) * 0.75 + 1 / 2 = ((38 : ℤ) : ℝ) by norm_num,
    Int.floor_intCast]
  rfl

lemma final_fixture_day28 :
    muscleFinalScore cfgFixture (28 * 86400000) profileFixture [exerciseFixture]
      [] 10 10 = 19 := by
  have hd : daysSince (28 * 86400000) 0 = 28 := by decide
  have hS : rawStrengthScore cfgFixture (28 * 86400000) profileFixture
      [exerciseFixture] = 25 := by
    rw [rawStrength_fixture, exerciseScore_fixture, hd, decay_fixture_halflife]
  rw [final_fixture (28 * 86400000) 25 hS (by norm_num) (by norm_num)]
  have hfl : ⌊(25 : ℝ) * 0.75 + 1 / 2⌋ = (19 : ℤ) := by
    rw [Int.floor_eq_iff]
    constructor <;> norm_num
  rw [hfl]
  rfl

/-- C7 counterexample: the cited pipeline reads the clock internally
(Date.now in route.ts line 86), so the identical stored inputs evaluated
at time 0 and 28 days later produce different final scores (38 against
19): the output is not a function of the explicit inputs alone. -/
theorem pipeline_clock_counterexample :
    muscleFinalScore cfgFixture 0 profileFixture [exerciseFixture] [] 10 10 ≠
      muscleFinalScore cfgFixture (28 * 86400000) profileFixture
        [exerciseFixture] [] 10 10 := by
  rw [final_fixture_day0, final_fixture_day28]
  decide

/-- C7 amended: with the clock reading supplied as an explicit input,
the pipeline is a deterministic map: two runs on equal inputs including
an equal clock value produce identical output; runs at different clock
values may differ because calculateMuscleScores reads Date.now for the
recency decay. -/
theorem pipeline_deterministic (cfg : ScoringConfig) (now1 now2 : ℤ)
    (p : ProfileData) (exs : List MuscleExercise)
    (logs : List ExerciseLogForMuscle) (s28 s56 : ℕ) (h : now1 = now2) :
    muscleFinalScore cfg now1 p exs logs s28 s56 =
      muscleFinalScore cfg now2 p exs logs s28 s56 := by
  rw [h]

/-- C7 witness: the determinism equality at the fixture inputs with the
clock fixed at time 0. -/
theorem pipeline_deterministic_witness :
    muscleFinalScore cfgFixture 0 profileFixture [exerciseFixture] [] 10 10 =
      muscleFinalScore cfgFixture 0 profileFixture [exerciseFixture] [] 10 10 :=
  pipeline_deterministic cfgFixture 0 0 profileFixture [exerciseFixture] []
    10 10 rfl

end RankedWorkout
